import Mathlib

/-!
Shallow embedding of the DIP client (`src/predict.py`) and the server
middleware (`src/dip_ml/fast_api.py`).

The client's network effects are modelled by an oracle environment `DipEnv`:
the k-th revision fetch of a call yields `DipEnv.fetch k`, and the dispatch
of item `i` for the `a`-th time within a call yields `DipEnv.dispatch i a`.
Python `bytes` are `List Nat`; an `io.IOBase` stream is an opaque handle.
A Python dict item is a list of key/value bindings in insertion order.
Because `RemoteModel.__extract_files` mutates a dict item in place
(`data.pop(key)`), each dispatch also returns the state of the item object
after the call, and the engine threads the item list as mutable state.
-/

abbrev Bytes := List Nat

inductive PyVal where
  | pyBytes (b : Bytes)
  | pyStream (h : Nat)
  | pyStr (s : String)
deriving DecidableEq, Repr

/-- The `isinstance(value, (bytes, io.IOBase))` test of `__extract_files`. -/
def PyVal.isBinary : PyVal → Bool
  | .pyBytes _ => true
  | .pyStream _ => true
  | .pyStr _ => false

/-- One element of the batch: a bare blob, a bare stream, an opaque scalar
(for example a `str`), or a dict of named values. -/
inductive Item where
  | blob (b : Bytes)
  | stream (h : Nat)
  | scalar (s : String)
  | fields (entries : List (String × PyVal))
deriving DecidableEq, Repr

/-- `RemoteModel.__extract_files`.  Returns the `data` value handed to the
POST, the `files` dict, and the state of the caller's item object after the
call: popping the binary entries of a dict mutates that dict in place, so for
a dict item the third component drops exactly the binary entries. -/
def extract_files : Item → Item × List (String × PyVal) × Item
  | .blob b => (.fields [], [("media", .pyBytes b)], .blob b)
  | .stream h => (.fields [], [("media", .pyStream h)], .stream h)
  | .scalar s => (.scalar s, [], .scalar s)
  | .fields es =>
      (.fields (es.filter fun kv => !kv.2.isBinary),
       es.filter fun kv => kv.2.isBinary,
       .fields (es.filter fun kv => !kv.2.isBinary))

/-- The `DipResponse` pydantic model. -/
structure DipResponse where
  data_idx : Nat
  status_code : Option Nat := none
  error : Option String := none
  content : Option Bytes := none
deriving DecidableEq, Repr

/-- The `DataPointRetryStat` pydantic model; timestamps are reduced to the
flag that `end_time` has been set. -/
structure DataPointRetryStat where
  data_idx : Nat
  status_code : Option Nat := none
  error : Option String := none
  end_time_set : Bool := false
deriving DecidableEq, Repr

/-- The `BatchRetryStat` pydantic model. -/
structure BatchRetryStat where
  revision : Option String := none
  revision_error : Option String := none
  data_point_retries : List DataPointRetryStat := []
  end_time_set : Bool := false
deriving DecidableEq, Repr

/-- The `BatchPredictStat` pydantic model. -/
structure BatchPredictStat where
  batch_retries : List BatchRetryStat := []
deriving DecidableEq, Repr

/-- Outcome of one GET to the revision endpoint, as `__request_revision`
classifies it: a parsed revision string, or any of its raised exceptions
(`InvalidResponseStatusException`, `ProtocolViolationException`, transport
errors) reduced to the message `repr(e)` recorded by the caller. -/
inductive FetchResult where
  | ok (rev : String)
  | fail (msg : String)
deriving DecidableEq, Repr

/-- Behaviour of one POST inside `__predict`: an HTTP response with a status
and a body, or a transport-level exception with description `repr(e)`. -/
inductive DispatchOutcome where
  | response (status : Nat) (body : Bytes)
  | exn (msg : String)
deriving DecidableEq, Repr

/-- Oracle environment for one `batch_predict` call: the outcome of the k-th
revision fetch, and the outcome of the a-th dispatch of item i. -/
structure DipEnv where
  fetch : Nat → FetchResult
  dispatch : Nat → Nat → DispatchOutcome

/-- The `RemoteModel` constructor arguments that drive the engine. -/
structure ModelConfig where
  data_point_retry : Nat := 10
  batch_retry : Nat := 3
  sequential : Bool := false
  skip_revision_for_single_point : Bool := true

/-- Header construction in `__predict`: no revision means single-point skip
mode and the bypass header; otherwise the revision header. -/
def buildHeaders : Option String → List (String × String)
  | none => [("x-dip", "off")]
  | some rev => [("x-model-revision", rev)]

/-- One POST as put on the wire: target item index, headers, the form data
and the files dict produced by `extract_files`. -/
structure PostRequest where
  data_idx : Nat
  headers : List (String × String)
  form : Item
  files : List (String × PyVal)
deriving DecidableEq, Repr

/-- `RemoteModel.__predict` for item `data_idx` whose dispatch outcome is
`env.dispatch data_idx attempt`: classify the item, build headers, send, and
absorb any exception into the returned `DipResponse`/`DataPointRetryStat`
pair.  Also returns the request put on the wire and the (possibly mutated)
state of the item object. -/
def runPost (env : DipEnv) (data_idx attempt : Nat) (item : Item)
    (model_revision : Option String) :
    (DipResponse × DataPointRetryStat) × PostRequest × Item :=
  let ef := extract_files item
  let req : PostRequest := ⟨data_idx, buildHeaders model_revision, ef.1, ef.2.1⟩
  match env.dispatch data_idx attempt with
  | .response status body =>
      ((⟨data_idx, some status, none, some body⟩,
        ⟨data_idx, some status, none, true⟩), req, ef.2.2)
  | .exn msg =>
      ((⟨data_idx, none, some msg, none⟩,
        ⟨data_idx, none, some msg, true⟩), req, ef.2.2)

/-- Network-visible state threaded through one call: how many revision
fetches have happened, how many dispatches each index has had, and the
requests put on the wire in order. -/
structure NetTrace where
  fetchCount : Nat := 0
  attempts : Nat → Nat := fun _ => 0
  posts : List PostRequest := []

def bumpAttempts (a : Nat → Nat) (i : Nat) : Nat → Nat :=
  fun j => if j = i then a j + 1 else a j

/-- One task of a wave, executed against a snapshot of the trace and items:
this is how concurrently gathered tasks see the world, since each task reads
only its own index. -/
def snapshotTask (env : DipEnv) (tr : NetTrace) (items : List Item)
    (t : Nat × Option String) :
    (DipResponse × DataPointRetryStat) × PostRequest × Item :=
  runPost env t.1 (tr.attempts t.1) (items.getD t.1 (Item.scalar "")) t.2

/-- `RemoteModel.__gather_responses`: all tasks started from the same
snapshot, results joined in task order, writes merged afterwards. -/
def gather_responses (env : DipEnv) (tr : NetTrace) (items : List Item)
    (tasks : List (Nat × Option String)) :
    List (DipResponse × DataPointRetryStat) × NetTrace × List Item :=
  (tasks.map fun t => (snapshotTask env tr items t).1,
   { fetchCount := tr.fetchCount,
     attempts := tasks.foldl (fun a t => bumpAttempts a t.1) tr.attempts,
     posts := tr.posts ++ tasks.map fun t => (snapshotTask env tr items t).2.1 },
   tasks.foldl (fun its t => its.set t.1 (snapshotTask env tr items t).2.2) items)

/-- One awaited `__predict` call as the sequential fallback performs it,
with its writes applied immediately. -/
def predictOne (env : DipEnv) (tr : NetTrace) (items : List Item)
    (data_idx : Nat) (model_revision : Option String) :
    (DipResponse × DataPointRetryStat) × NetTrace × List Item :=
  let r := snapshotTask env tr items (data_idx, model_revision)
  (r.1,
   { fetchCount := tr.fetchCount,
     attempts := bumpAttempts tr.attempts data_idx,
     posts := tr.posts ++ [r.2.1] },
   items.set data_idx r.2.2)

/-- `RemoteModel.__predict_batch_sequentially`: one task at a time, in task
order. -/
def predict_batch_sequentially (env : DipEnv) :
    NetTrace → List Item → List (Nat × Option String) →
    List (DipResponse × DataPointRetryStat) × NetTrace × List Item
  | tr, items, [] => ([], tr, items)
  | tr, items, t :: ts =>
      let r := predictOne env tr items t.1 t.2
      let rest := predict_batch_sequentially env r.2.1 r.2.2 ts
      (r.1 :: rest.1, rest.2)

/-- `RemoteModel.__generate_tasks`: one `(index, revision)` pair per still
empty slot, in index order. -/
def generate_tasks (predictions : List (Option Bytes))
    (revision : Option String) : List (Nat × Option String) :=
  (List.range predictions.length).filterMap fun i =>
    if predictions.getD i none = none then some (i, revision) else none

/-- `RemoteModel.__assign_predictions_from_dip_responses`: a slot is written
exactly by a response with status 200, taking that response's content. -/
def assign_predictions : List DipResponse → List (Option Bytes) →
    List (Option Bytes)
  | [], preds => preds
  | r :: rs, preds =>
      assign_predictions rs
        (if r.status_code = some 200 then preds.set r.data_idx r.content
         else preds)

/-- The dispatch of one wave, by configuration: the sequential fallback or
the concurrent gather. -/
def runWave (env : DipEnv) (sequential : Bool) (tr : NetTrace)
    (items : List Item) (tasks : List (Nat × Option String)) :
    List (DipResponse × DataPointRetryStat) × NetTrace × List Item :=
  if sequential then predict_batch_sequentially env tr items tasks
  else gather_responses env tr items tasks

/-- State carried through the inner (data-point retry) loop of one round:
the prediction slots, the network trace, the item objects, and this round's
accumulated `data_point_retries`. -/
structure WaveState where
  slots : List (Option Bytes)
  tr : NetTrace
  items : List Item
  retryStats : List DataPointRetryStat

/-- The `for __ in range(self.__data_point_retry)` loop of `batch_predict`:
each pass generates the tasks for the still empty slots, dispatches them
(concurrently or sequentially by configuration), assigns the status-200
results into slots, appends the wave's stats, and returns successfully as
soon as no slot is empty.  The Bool is true when line 148's early return
fires. -/
def innerLoop (env : DipEnv) (sequential : Bool) (revision : Option String) :
    Nat → WaveState → Bool × WaveState
  | 0, ws => (false, ws)
  | fuel + 1, ws =>
      let tasks := generate_tasks ws.slots revision
      let wave := runWave env sequential ws.tr ws.items tasks
      let dips := wave.1.map Prod.fst
      let stats := wave.1.map Prod.snd
      let slots2 := assign_predictions dips ws.slots
      let ws2 : WaveState :=
        { slots := slots2, tr := wave.2.1, items := wave.2.2,
          retryStats := ws.retryStats ++ stats }
      if slots2.all Option.isSome then (true, ws2)
      else innerLoop env sequential revision fuel ws2

/-- State carried from one outer round to the next: the slots, the
`revision` variable (the `none` start stands for Python's initial `None`),
the trace, and the item objects. -/
structure RoundState where
  slots : List (Option Bytes)
  revision : Option String
  tr : NetTrace
  items : List Item

/-- One iteration of the `for _batch_retry_idx in range(self.__batch_retry)`
loop: decide skip mode, fetch the revision unless skipped, reset every slot
when the fetched revision differs from the previous one, then run the inner
loop.  Produces the round's `BatchRetryStat`, whether the round returned
successfully, and the state for the next round. -/
def runRound (env : DipEnv) (cfg : ModelConfig) (rs : RoundState) :
    BatchRetryStat × Bool × RoundState :=
  let should_skip :=
    cfg.skip_revision_for_single_point && rs.items.length == 1
  if should_skip then
    let res := innerLoop env cfg.sequential none cfg.data_point_retry
      { slots := rs.slots, tr := rs.tr, items := rs.items, retryStats := [] }
    ({ revision := none, revision_error := none,
       data_point_retries := res.2.retryStats, end_time_set := true },
     res.1,
     { slots := res.2.slots, revision := none, tr := res.2.tr,
       items := res.2.items })
  else
    match env.fetch rs.tr.fetchCount with
    | .fail msg =>
        ({ revision := none, revision_error := some msg,
           data_point_retries := [], end_time_set := true },
         false,
         { rs with tr := { rs.tr with fetchCount := rs.tr.fetchCount + 1 } })
    | .ok r =>
        let slots0 :=
          if (some r : Option String) ≠ rs.revision
          then List.replicate rs.items.length none else rs.slots
        let res := innerLoop env cfg.sequential (some r) cfg.data_point_retry
          { slots := slots0,
            tr := { rs.tr with fetchCount := rs.tr.fetchCount + 1 },
            items := rs.items, retryStats := [] }
        ({ revision := some r, revision_error := none,
           data_point_retries := res.2.retryStats, end_time_set := true },
         res.1,
         { slots := res.2.slots, revision := some r, tr := res.2.tr,
           items := res.2.items })

/-- What one `batch_predict` call produces: the returned predictions (or
`None`), the returned stats, and the network trace and final item objects
for reasoning about effects. -/
structure RunResult where
  result : Option (List (Option Bytes))
  stat : BatchPredictStat
  trace : NetTrace
  items : List Item

/-- The outer loop of `batch_predict`; after the rounds are exhausted both
of lines 153 and 155 return `None` with the stats. -/
def batchLoop (env : DipEnv) (cfg : ModelConfig) :
    Nat → RoundState → List BatchRetryStat → RunResult
  | 0, rs, recs =>
      { result := none, stat := ⟨recs⟩, trace := rs.tr, items := rs.items }
  | fuel + 1, rs, recs =>
      let step := runRound env cfg rs
      if step.2.1 then
        { result := some step.2.2.slots, stat := ⟨recs ++ [step.1]⟩,
          trace := step.2.2.tr, items := step.2.2.items }
      else batchLoop env cfg fuel step.2.2 (recs ++ [step.1])

/-- The body of `batch_predict` after the input check: slots start empty,
the revision variable starts as `None`, and the outer loop runs
`batch_retry` times. -/
def runBatchPredict (env : DipEnv) (cfg : ModelConfig) (xs : List Item) :
    RunResult :=
  batchLoop env cfg cfg.batch_retry
    { slots := List.replicate xs.length none, revision := none,
      tr := { fetchCount := 0, attempts := fun _ => 0, posts := [] },
      items := xs } []

/-- The argument of `batch_predict`: a Python list of items, or any other
object (carrying some description). -/
inductive BatchInput where
  | list (xs : List Item)
  | notList (descr : String)

/-- `RemoteModel.batch_predict`: `__check_input` raises `ValueError` for a
non-list before any network activity; for a list the engine runs and no
exception escapes. -/
def batch_predict (env : DipEnv) (cfg : ModelConfig) (x : BatchInput) :
    Except String RunResult :=
  match x with
  | .notList _ => .error "Input must be a list"
  | .list xs => .ok (runBatchPredict env cfg xs)

/-- A request as the server middleware sees it. -/
structure HttpRequest where
  path : String
  method : String
  headers : List (String × String)
deriving DecidableEq, Repr

/-- What the middleware does with a request: answer itself with a status and
an optional JSON object body, or pass the request on to the application. -/
inductive MwResult where
  | respond (status : Nat) (body : Option (List (String × String)))
  | passThrough
deriving DecidableEq, Repr

/-- `DipMiddleware.init_app.process_request` from `src/dip_ml/fast_api.py`:
serve `GET /model_revision`, leave unconfigured paths and non-POST methods
alone, honour the bypass header, then enforce the revision header. -/
def process_request (paths : List String) (app_revision : String)
    (req : HttpRequest) : MwResult :=
  if req.path = "/model_revision" ∧ req.method = "GET" then
    .respond 200 (some [("revision", app_revision)])
  else if req.path ∉ paths ∨ req.method ≠ "POST" then
    .passThrough
  else if List.lookup "x-dip" req.headers = some "off" then
    .passThrough
  else
    match List.lookup "x-model-revision" req.headers with
    | none =>
        .respond 412 (some [("error", "header x-model-revision is required")])
    | some v =>
        if v ≠ app_revision then .respond 400 none else .passThrough

/-- Environment whose every fetch yields revision 1 and every dispatch
answers 200. -/
def envOkAll : DipEnv :=
  ⟨fun _ => .ok "1", fun _ _ => .response 200 [7]⟩

/-- Environment whose every fetch fails and every dispatch raises. -/
def envFailFetch : DipEnv :=
  ⟨fun _ => .fail "ConnectError", fun _ _ => .exn "ConnectError"⟩

/-- Environment whose every dispatch answers 400 with a non-empty body. -/
def env400 : DipEnv :=
  ⟨fun _ => .ok "1", fun _ _ => .response 400 [7]⟩

/-- A configuration with skip mode off. -/
def cfgNoSkip : ModelConfig :=
  { data_point_retry := 2, batch_retry := 2, sequential := false,
    skip_revision_for_single_point := false }

/-- A configuration with skip mode on. -/
def cfgSkip : ModelConfig :=
  { data_point_retry := 2, batch_retry := 2, sequential := false,
    skip_revision_for_single_point := true }

/-- A mid-call round state with one filled and one empty slot, whose last
seen revision is 1. -/
def rsMid : RoundState :=
  { slots := [some [5], none], revision := some "1",
    tr := { fetchCount := 0, attempts := fun _ => 0, posts := [] },
    items := [Item.scalar "a", Item.scalar "b"] }

theorem getD_set_ne {α : Type} (l : List α) {i j : Nat} (h : i ≠ j)
    (v d : α) : (l.set i v).getD j d = l.getD j d := by
  simp [List.getD_eq_getElem?_getD, List.getElem?_set_ne h]

theorem runPost_shape (env : DipEnv) (i a : Nat) (item : Item)
    (rev : Option String) :
    (runPost env i a item rev).1.1.data_idx = i ∧
    (runPost env i a item rev).1.2.data_idx = i ∧
    (runPost env i a item rev).1.2.end_time_set = true ∧
    (runPost env i a item rev).2.1.data_idx = i ∧
    (runPost env i a item rev).2.1.headers = buildHeaders rev := by
  unfold runPost
  cases env.dispatch i a <;> simp

theorem snapshotTask_shape (env : DipEnv) (tr : NetTrace) (items : List Item)
    (t : Nat × Option String) :
    (snapshotTask env tr items t).1.1.data_idx = t.1 ∧
    (snapshotTask env tr items t).1.2.data_idx = t.1 ∧
    (snapshotTask env tr items t).1.2.end_time_set = true ∧
    (snapshotTask env tr items t).2.1.data_idx = t.1 ∧
    (snapshotTask env tr items t).2.1.headers = buildHeaders t.2 := by
  unfold snapshotTask
  exact runPost_shape env t.1 (tr.attempts t.1)
    (items.getD t.1 (Item.scalar "")) t.2

theorem generate_tasks_mem {preds : List (Option Bytes)}
    {rev : Option String} {t : Nat × Option String}
    (h : t ∈ generate_tasks preds rev) :
    t.2 = rev ∧ preds.getD t.1 none = none := by
  unfold generate_tasks at h
  simp only [List.mem_filterMap, List.mem_range] at h
  obtain ⟨i, _, hcond⟩ := h
  split at hcond
  case isTrue hc =>
    injection hcond with h2
    subst h2
    exact ⟨rfl, hc⟩
  case isFalse hc => exact absurd hcond (by simp)

theorem tasks_fst_filter (preds : List (Option Bytes)) (rev : Option String) :
    ∀ l : List Nat,
      ((l.filterMap fun i =>
          if preds.getD i none = none then some (i, rev) else none).map
        Prod.fst)
      = l.filter fun i => decide (preds.getD i none = none)
  | [] => rfl
  | i :: is => by
      rw [List.filterMap_cons]
      by_cases h : preds.getD i none = none
      · rw [if_pos h, List.map_cons, tasks_fst_filter preds rev is,
          List.filter_cons, if_pos (by simpa using h)]
      · rw [if_neg h, tasks_fst_filter preds rev is,
          List.filter_cons, if_neg (by simpa using h)]

theorem generate_tasks_nodup (preds : List (Option Bytes))
    (rev : Option String) :
    ((generate_tasks preds rev).map Prod.fst).Nodup := by
  unfold generate_tasks
  rw [tasks_fst_filter]
  exact (List.nodup_range _).filter _

theorem assign_getD_ne (i : Nat) :
    ∀ (rs : List DipResponse) (preds : List (Option Bytes)),
      (∀ r ∈ rs, r.data_idx ≠ i) →
      (assign_predictions rs preds).getD i none = preds.getD i none
  | [], _, _ => rfl
  | r :: rs, preds, h => by
      rw [assign_predictions]
      rw [assign_getD_ne i rs _ fun r2 h2 => h r2 (List.mem_cons_of_mem r h2)]
      by_cases hs : r.status_code = some 200
      · rw [if_pos hs]
        exact getD_set_ne preds (h r (List.mem_cons_self r rs)) _ _
      · rw [if_neg hs]

theorem assign_length :
    ∀ (rs : List DipResponse) (preds : List (Option Bytes)),
      (assign_predictions rs preds).length = preds.length
  | [], _ => rfl
  | r :: rs, preds => by
      rw [assign_predictions, assign_length rs]
      by_cases hs : r.status_code = some 200 <;> simp [hs]

theorem snapshotTask_congr (env : DipEnv) (tr tr2 : NetTrace)
    (items items2 : List Item) (t : Nat × Option String)
    (ha : tr2.attempts t.1 = tr.attempts t.1)
    (hi : items2.getD t.1 (Item.scalar "") = items.getD t.1 (Item.scalar "")) :
    snapshotTask env tr2 items2 t = snapshotTask env tr items t := by
  unfold snapshotTask
  rw [ha, hi]

theorem seq_eq_gather (env : DipEnv) :
    ∀ (tasks : List (Nat × Option String)) (tr : NetTrace)
      (items : List Item),
      (tasks.map Prod.fst).Nodup →
      predict_batch_sequentially env tr items tasks
        = gather_responses env tr items tasks
  | [], tr, items, _ => by
      simp [predict_batch_sequentially, gather_responses]
  | t :: ts, tr, items, h => by
      rw [List.map_cons, List.nodup_cons] at h
      have hne : ∀ t2 ∈ ts, t2.1 ≠ t.1 := by
        intro t2 ht2 heq
        exact h.1 (heq ▸ List.mem_map_of_mem Prod.fst ht2)
      have hsnap : ∀ t2 ∈ ts,
          snapshotTask env
            { fetchCount := tr.fetchCount,
              attempts := bumpAttempts tr.attempts t.1,
              posts := tr.posts ++ [(snapshotTask env tr items t).2.1] }
            (items.set t.1 (snapshotTask env tr items t).2.2) t2
          = snapshotTask env tr items t2 := by
        intro t2 ht2
        exact snapshotTask_congr env tr _ items _ t2
          (by simp [bumpAttempts, hne t2 ht2])
          (getD_set_ne items (Ne.symm (hne t2 ht2)) _ _)
      rw [predict_batch_sequentially]
      rw [seq_eq_gather env ts _ _ h.2]
      simp only [gather_responses, predictOne, List.map_cons,
        List.foldl_cons, Prod.mk.injEq, Prod.mk.eta]
      refine ⟨?_, ?_, ?_⟩
      · exact congrArg _ (List.map_congr_left fun t2 ht2 =>
          congrArg (fun r => r.1) (hsnap t2 ht2))
      · congr 1
        rw [List.append_assoc, List.singleton_append]
        exact congrArg _ (congrArg _ (List.map_congr_left fun t2 ht2 =>
          congrArg (fun r => r.2.1) (hsnap t2 ht2)))
      · exact List.foldl_ext _ _ _ fun a t2 ht2 => by rw [hsnap t2 ht2]

theorem runWave_eq_gather (env : DipEnv) (sq : Bool) (tr : NetTrace)
    (items : List Item) (tasks : List (Nat × Option String))
    (h : (tasks.map Prod.fst).Nodup) :
    runWave env sq tr items tasks = gather_responses env tr items tasks := by
  cases sq
  · rfl
  · exact seq_eq_gather env tasks tr items h

theorem innerLoop_seq_eq (env : DipEnv) (rev : Option String) :
    ∀ (fuel : Nat) (ws : WaveState) (sq : Bool),
      innerLoop env sq rev fuel ws = innerLoop env false rev fuel ws
  | 0, _, _ => rfl
  | fuel + 1, ws, sq => by
      rw [innerLoop, innerLoop,
        runWave_eq_gather env sq _ _ _ (generate_tasks_nodup _ _),
        runWave_eq_gather env false _ _ _ (generate_tasks_nodup _ _),
        innerLoop_seq_eq env rev fuel _ sq]

theorem foldl_set_length {α β : Type} (idx : β → Nat) (g : β → α) :
    ∀ (l : List β) (its : List α),
      (l.foldl (fun acc t => acc.set (idx t) (g t)) its).length = its.length
  | [], _ => rfl
  | t :: ts, its => by
      rw [List.foldl_cons, foldl_set_length idx g ts, List.length_set]

theorem innerLoop_trace_basic (env : DipEnv) (rev : Option String) :
    ∀ (fuel : Nat) (ws : WaveState),
      ((innerLoop env false rev fuel ws).2.tr.fetchCount = ws.tr.fetchCount)
      ∧ ((innerLoop env false rev fuel ws).2.items.length = ws.items.length)
      ∧ ((innerLoop env false rev fuel ws).2.slots.length = ws.slots.length)
  | 0, _ => ⟨rfl, rfl, rfl⟩
  | fuel + 1, ws => by
      rw [innerLoop, runWave_eq_gather env false _ _ _ (generate_tasks_nodup _ _)]
      split
      · exact ⟨rfl, foldl_set_length Prod.fst _ _ _, assign_length _ _⟩
      · obtain ⟨h1, h2, h3⟩ := innerLoop_trace_basic env rev fuel
          { slots := assign_predictions
              ((gather_responses env ws.tr ws.items
                  (generate_tasks ws.slots rev)).1.map Prod.fst) ws.slots,
            tr := (gather_responses env ws.tr ws.items
              (generate_tasks ws.slots rev)).2.1,
            items := (gather_responses env ws.tr ws.items
              (generate_tasks ws.slots rev)).2.2,
            retryStats := ws.retryStats ++
              ((gather_responses env ws.tr ws.items
                  (generate_tasks ws.slots rev)).1.map Prod.snd) }
        refine ⟨?_, ?_, ?_⟩
        · rw [h1]; rfl
        · rw [h2]; exact foldl_set_length Prod.fst _ _ _
        · rw [h3]; exact assign_length _ _

theorem innerLoop_true_all (env : DipEnv) (rev : Option String) :
    ∀ (fuel : Nat) (ws : WaveState),
      (innerLoop env false rev fuel ws).1 = true →
      ((innerLoop env false rev fuel ws).2.slots.all Option.isSome) = true
  | 0, _ => fun h => nomatch h
  | fuel + 1, ws => by
      rw [innerLoop, runWave_eq_gather env false _ _ _ (generate_tasks_nodup _ _)]
      split
      · intro _
        assumption
      · intro h
        exact innerLoop_true_all env rev fuel _ h

theorem gather_resp_mem (env : DipEnv) (tr : NetTrace) (items : List Item)
    (tasks : List (Nat × Option String)) {p : DipResponse × DataPointRetryStat}
    (h : p ∈ (gather_responses env tr items tasks).1) :
    ∃ t ∈ tasks, (snapshotTask env tr items t).1 = p := by
  unfold gather_responses at h
  exact List.mem_map.mp h

theorem innerLoop_preserve (env : DipEnv) (rev : Option String) :
    ∀ (fuel : Nat) (ws : WaveState) (i : Nat) (v : Bytes),
      ws.slots.getD i none = some v →
      ((innerLoop env false rev fuel ws).2.slots.getD i none = some v)
      ∧ (∀ s ∈ (innerLoop env false rev fuel ws).2.retryStats,
          s ∈ ws.retryStats ∨ s.data_idx ≠ i)
  | 0, _, _, _, h => ⟨h, fun _ hs => Or.inl hs⟩
  | fuel + 1, ws, i, v, h => by
      rw [innerLoop, runWave_eq_gather env false _ _ _ (generate_tasks_nodup _ _)]
      have htasks : ∀ t ∈ generate_tasks ws.slots rev, t.1 ≠ i := by
        intro t ht heq
        have h2 := (generate_tasks_mem ht).2
        rw [heq, h] at h2
        cases h2
      have hdips : ∀ d ∈ ((gather_responses env ws.tr ws.items
          (generate_tasks ws.slots rev)).1.map Prod.fst), d.data_idx ≠ i := by
        intro d hd
        obtain ⟨p, hp, rfl⟩ := List.mem_map.mp hd
        obtain ⟨t, ht, rfl⟩ := gather_resp_mem env ws.tr ws.items _ hp
        rw [(snapshotTask_shape env ws.tr ws.items t).1]
        exact htasks t ht
      have hstats : ∀ s ∈ ((gather_responses env ws.tr ws.items
          (generate_tasks ws.slots rev)).1.map Prod.snd), s.data_idx ≠ i := by
        intro s hs
        obtain ⟨p, hp, rfl⟩ := List.mem_map.mp hs
        obtain ⟨t, ht, rfl⟩ := gather_resp_mem env ws.tr ws.items _ hp
        rw [(snapshotTask_shape env ws.tr ws.items t).2.1]
        exact htasks t ht
      have hslots2 : (assign_predictions
          ((gather_responses env ws.tr ws.items
            (generate_tasks ws.slots rev)).1.map Prod.fst)
          ws.slots).getD i none = some v := by
        rw [assign_getD_ne i _ _ hdips]
        exact h
      split
      · refine ⟨hslots2, ?_⟩
        intro s hs
        rcases List.mem_append.mp hs with h1 | h2
        · exact Or.inl h1
        · exact Or.inr (hstats s h2)
      · constructor
        · exact (innerLoop_preserve env rev fuel _ i v hslots2).1
        · intro s hs
          rcases (innerLoop_preserve env rev fuel _ i v hslots2).2 s hs
            with h1 | h2
          · rcases List.mem_append.mp h1 with h3 | h4
            · exact Or.inl h3
            · exact Or.inr (hstats s h4)
          · exact Or.inr h2

theorem innerLoop_posts (env : DipEnv) (rev : Option String) :
    ∀ (fuel : Nat) (ws : WaveState),
      ∀ req ∈ (innerLoop env false rev fuel ws).2.tr.posts,
        req ∈ ws.tr.posts ∨ req.headers = buildHeaders rev
  | 0, _ => fun _ hreq => Or.inl hreq
  | fuel + 1, ws => by
      rw [innerLoop, runWave_eq_gather env false _ _ _ (generate_tasks_nodup _ _)]
      have hnew : ∀ req ∈ (gather_responses env ws.tr ws.items
          (generate_tasks ws.slots rev)).2.1.posts,
          req ∈ ws.tr.posts ∨ req.headers = buildHeaders rev := by
        intro req hreq
        unfold gather_responses at hreq
        rcases List.mem_append.mp hreq with h1 | h2
        · exact Or.inl h1
        · obtain ⟨t, ht, rfl⟩ := List.mem_map.mp h2
          right
          rw [(snapshotTask_shape env ws.tr ws.items t).2.2.2.2]
          rw [(generate_tasks_mem ht).1]
      split
      · intro req hreq
        exact hnew req hreq
      · intro req hreq
        rcases innerLoop_posts env rev fuel _ req hreq with h1 | h2
        · exact hnew req h1
        · exact Or.inr h2

theorem runRound_seq (env : DipEnv) (cfg : ModelConfig) (rs : RoundState) :
    runRound env cfg rs = runRound env { cfg with sequential := false } rs := by
  unfold runRound
  by_cases hc :
      (cfg.skip_revision_for_single_point && rs.items.length == 1) = true
  · rw [if_pos hc, if_pos hc,
      innerLoop_seq_eq env none cfg.data_point_retry _ cfg.sequential]
  · rw [if_neg hc, if_neg hc]
    cases hf : env.fetch rs.tr.fetchCount with
    | fail msg => rfl
    | ok r =>
        dsimp only
        rw [innerLoop_seq_eq env (some r) cfg.data_point_retry _ cfg.sequential]

theorem runRound_skip (env : DipEnv) (cfg : ModelConfig) (rs : RoundState)
    (hc : (cfg.skip_revision_for_single_point && rs.items.length == 1)
      = true) :
    runRound env cfg rs =
      ({ revision := none, revision_error := none,
         data_point_retries := (innerLoop env false none cfg.data_point_retry
           { slots := rs.slots, tr := rs.tr, items := rs.items,
             retryStats := [] }).2.retryStats, end_time_set := true },
       (innerLoop env false none cfg.data_point_retry
         { slots := rs.slots, tr := rs.tr, items := rs.items,
           retryStats := [] }).1,
       { slots := (innerLoop env false none cfg.data_point_retry
           { slots := rs.slots, tr := rs.tr, items := rs.items,
             retryStats := [] }).2.slots,
         revision := none,
         tr := (innerLoop env false none cfg.data_point_retry
           { slots := rs.slots, tr := rs.tr, items := rs.items,
             retryStats := [] }).2.tr,
         items := (innerLoop env false none cfg.data_point_retry
           { slots := rs.slots, tr := rs.tr, items := rs.items,
             retryStats := [] }).2.items }) := by
  rw [runRound_seq]
  unfold runRound
  rw [if_pos hc]

theorem runRound_fail (env : DipEnv) (cfg : ModelConfig) (rs : RoundState)
    (msg : String)
    (hc : (cfg.skip_revision_for_single_point && rs.items.length == 1)
      = false)
    (hf : env.fetch rs.tr.fetchCount = FetchResult.fail msg) :
    runRound env cfg rs =
      ({ revision := none, revision_error := some msg,
         data_point_retries := [], end_time_set := true }, false,
       { rs with tr := { rs.tr with
           fetchCount := rs.tr.fetchCount + 1 } }) := by
  unfold runRound
  rw [if_neg (by simp [hc]), hf]

theorem runRound_ok (env : DipEnv) (cfg : ModelConfig) (rs : RoundState)
    (r : String)
    (hc : (cfg.skip_revision_for_single_point && rs.items.length == 1)
      = false)
    (hf : env.fetch rs.tr.fetchCount = FetchResult.ok r) :
    runRound env cfg rs =
      ({ revision := some r, revision_error := none,
         data_point_retries := (innerLoop env false (some r)
           cfg.data_point_retry
           { slots := if (some r : Option String) ≠ rs.revision
               then List.replicate rs.items.length none else rs.slots,
             tr := { rs.tr with fetchCount := rs.tr.fetchCount + 1 },
             items := rs.items, retryStats := [] }).2.retryStats,
         end_time_set := true },
       (innerLoop env false (some r) cfg.data_point_retry
         { slots := if (some r : Option String) ≠ rs.revision
             then List.replicate rs.items.length none else rs.slots,
           tr := { rs.tr with fetchCount := rs.tr.fetchCount + 1 },
           items := rs.items, retryStats := [] }).1,
       { slots := (innerLoop env false (some r) cfg.data_point_retry
           { slots := if (some r : Option String) ≠ rs.revision
               then List.replicate rs.items.length none else rs.slots,
             tr := { rs.tr with fetchCount := rs.tr.fetchCount + 1 },
             items := rs.items, retryStats := [] }).2.slots,
         revision := some r,
         tr := (innerLoop env false (some r) cfg.data_point_retry
           { slots := if (some r : Option String) ≠ rs.revision
               then List.replicate rs.items.length none else rs.slots,
             tr := { rs.tr with fetchCount := rs.tr.fetchCount + 1 },
             items := rs.items, retryStats := [] }).2.tr,
         items := (innerLoop env false (some r) cfg.data_point_retry
           { slots := if (some r : Option String) ≠ rs.revision
               then List.replicate rs.items.length none else rs.slots,
             tr := { rs.tr with fetchCount := rs.tr.fetchCount + 1 },
             items := rs.items, retryStats := [] }).2.items }) := by
  rw [runRound_seq]
  unfold runRound
  rw [if_neg (by simp [hc]), hf]

theorem bool_eq_false {b : Bool} (h : ¬(b = true)) : b = false := by
  cases b
  · rfl
  · exact absurd rfl h

theorem runRound_inv (env : DipEnv) (cfg : ModelConfig) (rs : RoundState)
    (h : rs.slots.length = rs.items.length) :
    ((runRound env cfg rs).2.2.slots.length = rs.items.length)
    ∧ ((runRound env cfg rs).2.2.items.length = rs.items.length) := by
  by_cases hc :
      (cfg.skip_revision_for_single_point && rs.items.length == 1) = true
  · rw [runRound_skip env cfg rs hc]
    have hb := innerLoop_trace_basic env none cfg.data_point_retry
      { slots := rs.slots, tr := rs.tr, items := rs.items, retryStats := [] }
    exact ⟨hb.2.2.trans h, hb.2.1⟩
  · have hc2 := bool_eq_false hc
    cases hf : env.fetch rs.tr.fetchCount with
    | fail msg =>
        rw [runRound_fail env cfg rs msg hc2 hf]
        exact ⟨h, rfl⟩
    | ok r =>
        rw [runRound_ok env cfg rs r hc2 hf]
        have hb := innerLoop_trace_basic env (some r) cfg.data_point_retry
          { slots := if (some r : Option String) ≠ rs.revision
              then List.replicate rs.items.length none else rs.slots,
            tr := { rs.tr with fetchCount := rs.tr.fetchCount + 1 },
            items := rs.items, retryStats := [] }
        refine ⟨?_, hb.2.1⟩
        rw [hb.2.2]
        by_cases hr : (some r : Option String) ≠ rs.revision
        · rw [if_pos hr, List.length_replicate]
        · rw [if_neg hr]
          exact h

theorem runRound_success (env : DipEnv) (cfg : ModelConfig)
    (rs : RoundState) :
    (runRound env cfg rs).2.1 = true →
    ((runRound env cfg rs).2.2.slots.all Option.isSome) = true := by
  by_cases hc :
      (cfg.skip_revision_for_single_point && rs.items.length == 1) = true
  · rw [runRound_skip env cfg rs hc]
    exact innerLoop_true_all env none cfg.data_point_retry _
  · have hc2 := bool_eq_false hc
    cases hf : env.fetch rs.tr.fetchCount with
    | fail msg =>
        rw [runRound_fail env cfg rs msg hc2 hf]
        exact fun hx => nomatch hx
    | ok r =>
        rw [runRound_ok env cfg rs r hc2 hf]
        exact innerLoop_true_all env (some r) cfg.data_point_retry _

theorem batchLoop_c2 (env : DipEnv) (cfg : ModelConfig) (N : Nat) :
    ∀ (fuel : Nat) (rs : RoundState) (recs : List BatchRetryStat),
      rs.slots.length = N → rs.items.length = N →
      (∀ ps, (batchLoop env cfg fuel rs recs).result = some ps →
          ps.length = N ∧ ps.all Option.isSome = true)
      ∧ ((batchLoop env cfg fuel rs recs).result = none →
          (batchLoop env cfg fuel rs recs).stat.batch_retries.length
            = recs.length + fuel)
  | 0, rs, recs, _, _ => by
      constructor
      · intro ps hps
        exact nomatch hps
      · intro _
        rfl
  | fuel + 1, rs, recs, h1, h2 => by
      rw [batchLoop]
      split
      · rename_i hs
        constructor
        · intro ps hps
          injection hps with hps
          subst hps
          constructor
          · rw [(runRound_inv env cfg rs (h1.trans h2.symm)).1, h2]
          · exact runRound_success env cfg rs hs
        · intro hnone
          exact nomatch hnone
      · have hinv := runRound_inv env cfg rs (h1.trans h2.symm)
        have ih := batchLoop_c2 env cfg N fuel (runRound env cfg rs).2.2
          (recs ++ [(runRound env cfg rs).1])
          (hinv.1.trans h2) (hinv.2.trans h2)
        constructor
        · exact ih.1
        · intro hnone
          rw [ih.2 hnone, List.length_append]
          simp
          omega

theorem batchLoop_seq (env : DipEnv) (cfg : ModelConfig) :
    ∀ (fuel : Nat) (rs : RoundState) (recs : List BatchRetryStat),
      batchLoop env cfg fuel rs recs
        = batchLoop env { cfg with sequential := false } fuel rs recs
  | 0, _, _ => rfl
  | fuel + 1, rs, recs => by
      rw [batchLoop, batchLoop, ← runRound_seq env cfg rs,
        batchLoop_seq env cfg fuel (runRound env cfg rs).2.2
          (recs ++ [(runRound env cfg rs).1])]

theorem batchLoop_all_fail (env : DipEnv) (cfg : ModelConfig)
    (m : Nat → String) (hfail : ∀ k, env.fetch k = FetchResult.fail (m k)) :
    ∀ (fuel : Nat) (rs : RoundState) (recs : List BatchRetryStat),
      (cfg.skip_revision_for_single_point && rs.items.length == 1) = false →
      batchLoop env cfg fuel rs recs =
        { result := none,
          stat := ⟨recs ++ (List.range' rs.tr.fetchCount fuel).map fun k =>
            { revision := none, revision_error := some (m k),
              data_point_retries := [], end_time_set := true }⟩,
          trace := { rs.tr with fetchCount := rs.tr.fetchCount + fuel },
          items := rs.items }
  | 0, rs, recs, _ => by
      simp [batchLoop, List.range']
  | fuel + 1, rs, recs, hc => by
      rw [batchLoop,
        runRound_fail env cfg rs (m rs.tr.fetchCount) hc
          (hfail rs.tr.fetchCount)]
      dsimp only
      rw [if_neg Bool.false_ne_true]
      rw [batchLoop_all_fail env cfg m hfail fuel
        { slots := rs.slots, revision := rs.revision,
          tr := { fetchCount := rs.tr.fetchCount + 1,
                  attempts := rs.tr.attempts, posts := rs.tr.posts },
          items := rs.items }
        (recs ++ [({ revision := none,
                     revision_error := some (m rs.tr.fetchCount),
                     data_point_retries := [],
                     end_time_set := true } : BatchRetryStat)]) hc]
      have hn : rs.tr.fetchCount + 1 + fuel = rs.tr.fetchCount + (fuel + 1) :=
        by omega
      rw [hn, List.range'_succ, List.map_cons]
      simp

theorem batchLoop_skip (env : DipEnv) (cfg : ModelConfig)
    (hcfg : cfg.skip_revision_for_single_point = true) :
    ∀ (fuel : Nat) (rs : RoundState) (recs : List BatchRetryStat),
      rs.items.length = 1 →
      (∀ rec ∈ recs, rec.revision = none ∧ rec.revision_error = none) →
      (∀ req ∈ rs.tr.posts, req.headers = [("x-dip", "off")]) →
      ((batchLoop env cfg fuel rs recs).trace.fetchCount = rs.tr.fetchCount)
      ∧ (∀ rec ∈ (batchLoop env cfg fuel rs recs).stat.batch_retries,
          rec.revision = none ∧ rec.revision_error = none)
      ∧ (∀ req ∈ (batchLoop env cfg fuel rs recs).trace.posts,
          req.headers = [("x-dip", "off")])
  | 0, rs, recs, _, hrecs, hposts => ⟨rfl, hrecs, hposts⟩
  | fuel + 1, rs, recs, h1, hrecs, hposts => by
      have hc : (cfg.skip_revision_for_single_point
          && rs.items.length == 1) = true := by
        rw [hcfg, h1]
        rfl
      rw [batchLoop, runRound_skip env cfg rs hc]
      have hfc := (innerLoop_trace_basic env none cfg.data_point_retry
        { slots := rs.slots, tr := rs.tr, items := rs.items,
          retryStats := [] }).1
      have hlen := (innerLoop_trace_basic env none cfg.data_point_retry
        { slots := rs.slots, tr := rs.tr, items := rs.items,
          retryStats := [] }).2.1
      have hposts2 : ∀ req ∈ (innerLoop env false none cfg.data_point_retry
          { slots := rs.slots, tr := rs.tr, items := rs.items,
            retryStats := [] }).2.tr.posts,
          req.headers = [("x-dip", "off")] := by
        intro req hreq
        rcases innerLoop_posts env none cfg.data_point_retry
          { slots := rs.slots, tr := rs.tr, items := rs.items,
            retryStats := [] } req hreq with h | h
        · exact hposts req h
        · exact h
      have hrecs2 : ∀ rec ∈ recs ++
          [({ revision := none,
              revision_error := none,
              data_point_retries := (innerLoop env false none
                cfg.data_point_retry
                { slots := rs.slots, tr := rs.tr, items := rs.items,
                  retryStats := [] }).2.retryStats,
              end_time_set := true } : BatchRetryStat)],
          rec.revision = none ∧ rec.revision_error = none := by
        intro rec hrec
        rcases List.mem_append.mp hrec with h | h
        · exact hrecs rec h
        · rw [List.mem_singleton] at h
          subst h
          exact ⟨rfl, rfl⟩
      split
      · exact ⟨hfc, hrecs2, hposts2⟩
      · have ih := batchLoop_skip env cfg hcfg fuel
          { slots := (innerLoop env false none cfg.data_point_retry
              { slots := rs.slots, tr := rs.tr, items := rs.items,
                retryStats := [] }).2.slots,
            revision := none,
            tr := (innerLoop env false none cfg.data_point_retry
              { slots := rs.slots, tr := rs.tr, items := rs.items,
                retryStats := [] }).2.tr,
            items := (innerLoop env false none cfg.data_point_retry
              { slots := rs.slots, tr := rs.tr, items := rs.items,
                retryStats := [] }).2.items }
          (recs ++
            [({ revision := none, revision_error := none,
                data_point_retries := (innerLoop env false none
                  cfg.data_point_retry
                  { slots := rs.slots, tr := rs.tr, items := rs.items,
                    retryStats := [] }).2.retryStats,
                end_time_set := true } : BatchRetryStat)])
          (hlen.trans h1) hrecs2 hposts2
        exact ⟨ih.1.trans hfc, ih.2.1, ih.2.2⟩

/-- C7: `__extract_files` maps a bare binary blob or byte stream to
attachments `{"media": item}` with empty form fields, and maps a field
mapping to the pair in which exactly the binary-valued entries appear among
the attachments under their original keys while every other entry stays in
the form fields with its original value. -/
theorem claim_C7_classify (b : Bytes) (sh : Nat)
    (es : List (String × PyVal)) (k : String) (v : PyVal) :
    (extract_files (Item.blob b)
      = (Item.fields [], [("media", PyVal.pyBytes b)], Item.blob b))
    ∧ (extract_files (Item.stream sh)
      = (Item.fields [], [("media", PyVal.pyStream sh)], Item.stream sh))
    ∧ ((k, v) ∈ (extract_files (Item.fields es)).2.1
        ↔ ((k, v) ∈ es ∧ v.isBinary = true))
    ∧ ((extract_files (Item.fields es)).1
        = Item.fields (es.filter fun kv => !kv.2.isBinary))
    ∧ ((k, v) ∈ (es.filter fun kv => !kv.2.isBinary)
        ↔ ((k, v) ∈ es ∧ v.isBinary = false)) := by
  refine ⟨rfl, rfl, ?_, rfl, ?_⟩
  · simp [extract_files, List.mem_filter]
  · simp [List.mem_filter]

/-- C4: classifying a dict item pops its binary entries out of the caller's
dict (`data.pop(key)` mutates the shared object), so the item is changed by
dispatch and a retried dispatch of the same item no longer carries the
files: the first dispatch of the mapping f to one binary blob sends the
blob as a file, the second dispatch of the same (now mutated) item sends no
file at all. -/
theorem claim_C4_mutation :
    ((extract_files (Item.fields [("f", PyVal.pyBytes [1])])).2.2
      = Item.fields [])
    ∧ (Item.fields ([] : List (String × PyVal))
        ≠ Item.fields [("f", PyVal.pyBytes [1])])
    ∧ ((runPost env400 0 0 (Item.fields [("f", PyVal.pyBytes [1])])
        (some "1")).2.1.files = [("f", PyVal.pyBytes [1])])
    ∧ ((runPost env400 0 1
        ((runPost env400 0 0 (Item.fields [("f", PyVal.pyBytes [1])])
          (some "1")).2.2) (some "1")).2.1.files
        = ([] : List (String × PyVal))) := by
  refine ⟨rfl, ?_, rfl, rfl⟩
  decide

/-- C6 counterexample: a dispatch answered 400 with body `[7]` yields a
`DipResponse` that records status 400 and also retains the body, refuting
the claim that a non-200 response keeps no body in the outcome. -/
theorem claim_C6_counterexample :
    ((runPost env400 0 0 (Item.blob [1]) (some "1")).1.1.status_code
      = some 400)
    ∧ ((runPost env400 0 0 (Item.blob [1]) (some "1")).1.1.content
      = some [7])
    ∧ ¬(((runPost env400 0 0 (Item.blob [1]) (some "1")).1.1.status_code
          ≠ some 200) →
        (runPost env400 0 0 (Item.blob [1]) (some "1")).1.1.content
          = none) := by
  refine ⟨rfl, rfl, ?_⟩
  decide

/-- C6 (amended): a single dispatch never propagates an exception to its
caller: a transport-level exception yields an outcome carrying the
description and no status or body; a response with status s yields an
outcome recording s and retaining the response body, also when s is not
200; a non-200 outcome is never written into a prediction slot. -/
theorem claim_C6_outcomes (env : DipEnv) (i a : Nat) (item : Item)
    (rev : Option String) :
    (∀ s b, env.dispatch i a = DispatchOutcome.response s b →
      (runPost env i a item rev).1.1
        = { data_idx := i, status_code := some s, error := none,
            content := some b }
      ∧ (runPost env i a item rev).1.2
        = { data_idx := i, status_code := some s, error := none,
            end_time_set := true })
    ∧ (∀ msg, env.dispatch i a = DispatchOutcome.exn msg →
      (runPost env i a item rev).1.1
        = { data_idx := i, status_code := none, error := some msg,
            content := none }
      ∧ (runPost env i a item rev).1.2
        = { data_idx := i, status_code := none, error := some msg,
            end_time_set := true })
    ∧ (∀ (preds : List (Option Bytes)) (r : DipResponse),
        r.status_code ≠ some 200 →
        assign_predictions [r] preds = preds) := by
  refine ⟨?_, ?_, ?_⟩
  · intro s b h
    unfold runPost
    rw [h]
    exact ⟨rfl, rfl⟩
  · intro msg h
    unfold runPost
    rw [h]
    exact ⟨rfl, rfl⟩
  · intro preds r h
    rw [assign_predictions, if_neg h, assign_predictions]

/-- C9: `batch_predict` raises the input-kind error exactly for a non-list
argument, before any network activity (the same error for every
environment), and for every list input no exception escapes: the call
returns an ordinary result. -/
theorem claim_C9_input_check (env env2 : DipEnv) (cfg : ModelConfig)
    (d : String) (xs : List Item) :
    (batch_predict env cfg (BatchInput.notList d)
      = Except.error "Input must be a list")
    ∧ (batch_predict env cfg (BatchInput.notList d)
        = batch_predict env2 cfg (BatchInput.notList d))
    ∧ ((batch_predict env cfg (BatchInput.list xs)).isOk = true) :=
  ⟨rfl, rfl, rfl⟩

/-- C10: the middleware serves `GET /model_revision` with status 200 and
the revision object for any headers; a POST to a configured path without
the bypass header gets 412 when `x-model-revision` is absent and 400 when
it mismatches, while `x-dip: off` bypasses both checks and passes the
request through. -/
theorem claim_C10_middleware (paths : List String) (app_revision : String)
    (req : HttpRequest) :
    (req.path = "/model_revision" → req.method = "GET" →
      process_request paths app_revision req
        = MwResult.respond 200 (some [("revision", app_revision)]))
    ∧ (req.method = "POST" → req.path ∈ paths →
        ((List.lookup "x-dip" req.headers = some "off" →
          process_request paths app_revision req = MwResult.passThrough)
        ∧ (List.lookup "x-dip" req.headers ≠ some "off" →
           List.lookup "x-model-revision" req.headers = none →
           process_request paths app_revision req
             = MwResult.respond 412
               (some [("error", "header x-model-revision is required")]))
        ∧ (∀ v, List.lookup "x-dip" req.headers ≠ some "off" →
            List.lookup "x-model-revision" req.headers = some v →
            v ≠ app_revision →
            process_request paths app_revision req
              = MwResult.respond 400 none))) := by
  unfold process_request
  constructor
  · intro h1 h2
    rw [if_pos ⟨h1, h2⟩]
  · intro hm hp
    have hng : ¬(req.path = "/model_revision" ∧ req.method = "GET") := by
      intro hx
      rw [hm] at hx
      exact absurd hx.2 (by decide)
    have hnp : ¬(req.path ∉ paths ∨ req.method ≠ "POST") := by
      simp [hp, hm]
    rw [if_neg hng, if_neg hnp]
    refine ⟨?_, ?_, ?_⟩
    · intro hdip
      rw [if_pos hdip]
    · intro hdip hnorev
      rw [if_neg hdip, hnorev]
    · intro v hdip hrev hne
      rw [if_neg hdip, hrev]
      dsimp only
      rw [if_pos hne]

/-- C2: for every input list and every pattern of fetch and dispatch
outcomes, `batch_predict` either returns a result of length exactly N with
every slot filled (possible only by the inner-loop early return, which
fires exactly when no slot is empty), or returns no result together with
the complete stats: one record per round, `batch_retry` of them. -/
theorem claim_C2_result_shape (env : DipEnv) (cfg : ModelConfig)
    (xs : List Item) :
    (∀ ps, (runBatchPredict env cfg xs).result = some ps →
      ps.length = xs.length ∧ ps.all Option.isSome = true)
    ∧ ((runBatchPredict env cfg xs).result = none →
      (runBatchPredict env cfg xs).stat.batch_retries.length
        = cfg.batch_retry) := by
  have h := batchLoop_c2 env cfg xs.length cfg.batch_retry
    { slots := List.replicate xs.length none, revision := none,
      tr := { fetchCount := 0, attempts := fun _ => 0, posts := [] },
      items := xs } []
    (List.length_replicate _ _) rfl
  exact ⟨h.1, fun hnone => (h.2 hnone).trans (Nat.zero_add _)⟩

/-- C8: running `batch_predict` with sequential dispatch and with
concurrent dispatch against the same environment produces the same result,
the same stats, the same wire trace and the same final item states: the
two modes differ only in wave execution strategy. -/
theorem claim_C8_dispatch_equiv (env : DipEnv) (cfg : ModelConfig)
    (xs : List Item) :
    runBatchPredict env { cfg with sequential := true } xs
      = runBatchPredict env { cfg with sequential := false } xs := by
  unfold runBatchPredict
  rw [batchLoop_seq env { cfg with sequential := true }]

/-- C3: in every run, a round whose revision fetch fails (skip mode not
applying) records the error in that round's record, closes the record with
an end time, returns no success, performs zero item dispatch attempts that
round (no dispatch record and no new request on the wire), and consumes
exactly one fetch attempt — stated for an arbitrary environment and
arbitrary mid-call round state, so it covers failing rounds of mixed runs;
consequently, when the fetch fails on every round the call returns no
result after exactly `batch_retry` fetch attempts and with zero item
dispatches on the wire. -/
theorem claim_C3_fetch_failure (env : DipEnv) (cfg : ModelConfig)
    (xs : List Item) (m : Nat → String)
    (hfail : ∀ k, env.fetch k = FetchResult.fail (m k))
    (hskip : (cfg.skip_revision_for_single_point && xs.length == 1)
      = false) :
    (∀ (env2 : DipEnv) (rs : RoundState) (msg : String),
      (cfg.skip_revision_for_single_point && rs.items.length == 1)
        = false →
      env2.fetch rs.tr.fetchCount = FetchResult.fail msg →
      ((runRound env2 cfg rs).1.revision_error = some msg)
      ∧ ((runRound env2 cfg rs).1.end_time_set = true)
      ∧ ((runRound env2 cfg rs).1.data_point_retries = [])
      ∧ ((runRound env2 cfg rs).2.1 = false)
      ∧ ((runRound env2 cfg rs).2.2.tr.posts = rs.tr.posts)
      ∧ ((runRound env2 cfg rs).2.2.tr.fetchCount
          = rs.tr.fetchCount + 1))
    ∧ ((runBatchPredict env cfg xs).result = none)
    ∧ ((runBatchPredict env cfg xs).trace.fetchCount = cfg.batch_retry)
    ∧ ((runBatchPredict env cfg xs).trace.posts = [])
    ∧ ((runBatchPredict env cfg xs).stat.batch_retries
        = (List.range cfg.batch_retry).map fun k =>
          { revision := none, revision_error := some (m k),
            data_point_retries := [], end_time_set := true }) := by
  constructor
  · intro env2 rs msg hsk hf
    rw [runRound_fail env2 cfg rs msg hsk hf]
    exact ⟨rfl, rfl, rfl, rfl, rfl, rfl⟩
  · unfold runBatchPredict
    rw [batchLoop_all_fail env cfg m hfail cfg.batch_retry
      { slots := List.replicate xs.length none, revision := none,
        tr := { fetchCount := 0, attempts := fun _ => 0, posts := [] },
        items := xs } [] hskip]
    refine ⟨rfl, Nat.zero_add _, rfl, ?_⟩
    rw [List.range_eq_range']
    exact List.nil_append _

/-- C3 witness: for a two-item batch against an environment whose revision
endpoint always fails, the conclusion holds at a concrete input. -/
theorem claim_C3_fetch_failure_witness :
    (∀ (env2 : DipEnv) (rs : RoundState) (msg : String),
      (cfgNoSkip.skip_revision_for_single_point && rs.items.length == 1)
        = false →
      env2.fetch rs.tr.fetchCount = FetchResult.fail msg →
      ((runRound env2 cfgNoSkip rs).1.revision_error = some msg)
      ∧ ((runRound env2 cfgNoSkip rs).1.end_time_set = true)
      ∧ ((runRound env2 cfgNoSkip rs).1.data_point_retries = [])
      ∧ ((runRound env2 cfgNoSkip rs).2.1 = false)
      ∧ ((runRound env2 cfgNoSkip rs).2.2.tr.posts = rs.tr.posts)
      ∧ ((runRound env2 cfgNoSkip rs).2.2.tr.fetchCount
          = rs.tr.fetchCount + 1))
    ∧ ((runBatchPredict envFailFetch cfgNoSkip
      [Item.scalar "d1", Item.scalar "d2"]).result = none)
    ∧ ((runBatchPredict envFailFetch cfgNoSkip
        [Item.scalar "d1", Item.scalar "d2"]).trace.fetchCount
      = cfgNoSkip.batch_retry)
    ∧ ((runBatchPredict envFailFetch cfgNoSkip
        [Item.scalar "d1", Item.scalar "d2"]).trace.posts = [])
    ∧ ((runBatchPredict envFailFetch cfgNoSkip
        [Item.scalar "d1", Item.scalar "d2"]).stat.batch_retries
        = (List.range cfgNoSkip.batch_retry).map fun _ =>
          { revision := none, revision_error := some "ConnectError",
            data_point_retries := [], end_time_set := true }) :=
  claim_C3_fetch_failure envFailFetch cfgNoSkip
    [Item.scalar "d1", Item.scalar "d2"] (fun _ => "ConnectError")
    (fun _ => rfl) rfl

/-- C5: with `skip_revision_for_single_point` on and a single-item batch,
the whole call performs zero revision fetches, every round's record reports
the revision as absent with no revision error, and every request put on
the wire carries the bypass header x-dip off instead of a revision
header. -/
theorem claim_C5_skip_mode (env : DipEnv) (cfg : ModelConfig)
    (xs : List Item)
    (hskip : cfg.skip_revision_for_single_point = true)
    (hone : xs.length = 1) :
    ((runBatchPredict env cfg xs).trace.fetchCount = 0)
    ∧ (∀ rec ∈ (runBatchPredict env cfg xs).stat.batch_retries,
        rec.revision = none ∧ rec.revision_error = none)
    ∧ (∀ req ∈ (runBatchPredict env cfg xs).trace.posts,
        req.headers = [("x-dip", "off")]) := by
  unfold runBatchPredict
  exact batchLoop_skip env cfg hskip cfg.batch_retry
    { slots := List.replicate xs.length none, revision := none,
      tr := { fetchCount := 0, attempts := fun _ => 0, posts := [] },
      items := xs } [] hone (fun _ hrec => nomatch hrec)
    (fun _ hreq => nomatch hreq)

/-- C5 witness: the conclusion at a concrete single-item batch with skip
mode on. -/
theorem claim_C5_skip_mode_witness :
    ((runBatchPredict envOkAll cfgSkip [Item.blob [1]]).trace.fetchCount
      = 0)
    ∧ (∀ rec ∈ (runBatchPredict envOkAll cfgSkip
        [Item.blob [1]]).stat.batch_retries,
        rec.revision = none ∧ rec.revision_error = none)
    ∧ (∀ req ∈ (runBatchPredict envOkAll cfgSkip
        [Item.blob [1]]).trace.posts,
        req.headers = [("x-dip", "off")]) :=
  claim_C5_skip_mode envOkAll cfgSkip [Item.blob [1]] rfl rfl

/-- C1: in a round whose revision fetch succeeds (skip mode not applying),
if the fetched revision differs from the previously held one (or from the
initial none sentinel) the round behaves exactly as if every slot had been
reset to empty before any dispatch, discarding all previously filled
results; if it is equal, every previously filled slot keeps its value
through the round and its index is never dispatched in the round; and a
round whose fetch fails changes neither the held revision nor the slots,
so the comparison is between consecutive successful fetches. -/
theorem claim_C1_revision_reset (env : DipEnv) (cfg : ModelConfig)
    (rs : RoundState) (r : String)
    (hskip : (cfg.skip_revision_for_single_point && rs.items.length == 1)
      = false)
    (hfetch : env.fetch rs.tr.fetchCount = FetchResult.ok r) :
    ((some r : Option String) ≠ rs.revision →
      runRound env cfg rs = runRound env cfg
        { rs with slots := List.replicate rs.items.length none })
    ∧ ((some r : Option String) = rs.revision →
      ∀ i v, rs.slots.getD i none = some v →
        ((runRound env cfg rs).2.2.slots.getD i none = some v)
        ∧ (∀ s ∈ (runRound env cfg rs).1.data_point_retries,
            s.data_idx ≠ i))
    ∧ (∀ (env2 : DipEnv) (msg : String),
        env2.fetch rs.tr.fetchCount = FetchResult.fail msg →
        ((runRound env2 cfg rs).2.2.revision = rs.revision)
        ∧ ((runRound env2 cfg rs).2.2.slots = rs.slots)) := by
  refine ⟨?_, ?_, ?_⟩
  · intro hne
    rw [runRound_ok env cfg rs r hskip hfetch,
      runRound_ok env cfg
        { rs with slots := List.replicate rs.items.length none }
        r hskip hfetch,
      if_pos hne, if_pos hne]
  · intro heq i v hv
    rw [runRound_ok env cfg rs r hskip hfetch,
      if_neg (fun hx => hx heq)]
    have h := innerLoop_preserve env (some r) cfg.data_point_retry
      { slots := rs.slots,
        tr := { rs.tr with fetchCount := rs.tr.fetchCount + 1 },
        items := rs.items, retryStats := [] } i v hv
    refine ⟨h.1, ?_⟩
    intro s hs
    rcases h.2 s hs with h1 | h2
    · exact absurd h1 (List.not_mem_nil s)
    · exact h2
  · intro env2 msg hf
    rw [runRound_fail env2 cfg rs msg hskip hf]
    exact ⟨rfl, rfl⟩

/-- C1 witness: the conclusion at a concrete mid-call round state with one
filled slot, a previously seen revision 1, and a fetch answering 1. -/
theorem claim_C1_revision_reset_witness :
    ((some "1" : Option String) ≠ rsMid.revision →
      runRound envOkAll cfgNoSkip rsMid = runRound envOkAll cfgNoSkip
        { rsMid with slots := List.replicate rsMid.items.length none })
    ∧ ((some "1" : Option String) = rsMid.revision →
      ∀ i v, rsMid.slots.getD i none = some v →
        ((runRound envOkAll cfgNoSkip rsMid).2.2.slots.getD i none = some v)
        ∧ (∀ s ∈ (runRound envOkAll cfgNoSkip rsMid).1.data_point_retries,
            s.data_idx ≠ i))
    ∧ (∀ (env2 : DipEnv) (msg : String),
        env2.fetch rsMid.tr.fetchCount = FetchResult.fail msg →
        ((runRound env2 cfgNoSkip rsMid).2.2.revision = rsMid.revision)
        ∧ ((runRound env2 cfgNoSkip rsMid).2.2.slots = rsMid.slots)) :=
  claim_C1_revision_reset envOkAll cfgNoSkip rsMid "1" rfl rfl
